import Mathlib

/-!
Shallow embedding of `debug_mcp_servers.py`.

The script probes each configured MCP server endpoint: it checks the
configuration entry, optionally runs a `docker --version` pre-check,
spawns the child process, waits a 1-second grace period, performs a
JSON-RPC handshake (`initialize`, `notifications/initialized`,
`tools/list`, `resources/list`), drains stderr when `initialize` got no
response, and tears the process down.

The embedding makes the interaction with the operating system explicit:
a `World` value records how every external call behaves (whether the
docker check passes, whether the spawn succeeds, whether the process
exits during the grace period, what each wire exchange yields, whether
the unprotected stderr drain raises, and how teardown behaves).
`test_mcp_server` is then a pure function from the configuration entry
and the world to the returned boolean together with the trace of
externally visible actions the script performed, mirroring the Python
control flow branch by branch.
-/

namespace McpDebug

/-- A Python/JSON value, as returned by `json.loads`.  Only its truthiness
is ever inspected by the script (`if response:`). -/
inductive PyValue where
  | null
  | bool (b : Bool)
  | num (n : Int)
  | str (s : String)
  | arr (elems : List PyValue)
  | obj (fields : List (String × PyValue))

/-- Python truthiness of a value: `None`, `False`, `0`, `""`, `[]`, `{}`
are falsy, everything else is truthy. -/
def PyValue.truthy : PyValue → Bool
  | .null => false
  | .bool b => b
  | .num n => n != 0
  | .str s => s != ""
  | .arr elems => !elems.isEmpty
  | .obj fields => !fields.isEmpty

/-- Truthiness of `send_mcp_request`'s result: `None` is falsy, a value is
as truthy as the value. -/
def respTruthy : Option PyValue → Bool
  | none => false
  | some v => v.truthy

/-- How one `send_mcp_request` call's interaction with the child plays out:
the write/flush (or the read) raises; the 5-second `select` window elapses
with nothing to read; `readline` returns a falsy (empty) line; or a line
arrives, carrying the result of `json.loads` (`none` when parsing raises). -/
inductive WireOutcome where
  | raises
  | timeout
  | emptyLine
  | line (parsed : Option PyValue)

/-- The body of `send_mcp_request`'s `try` block: `Except.error` marks an
exception reaching the `except` clause (a write/read failure, or
`json.loads` raising on a malformed line). -/
def send_body : WireOutcome → Except Unit (Option PyValue)
  | .raises => .error ()
  | .timeout => .ok none
  | .emptyLine => .ok none
  | .line (some v) => .ok (some v)
  | .line none => .error ()

/-- `send_mcp_request(process, method, params)`: writes the request and
waits up to 5 seconds for a response line; every exception inside the body
is caught and turned into `None`, so the function always returns. -/
def send_mcp_request (w : WireOutcome) : Option PyValue :=
  match send_body w with
  | .error _ => none
  | .ok r => r

/-- One externally visible action performed by `test_mcp_server`, in
program order: the `docker --version` pre-check, the PATH-lookup warning,
the `subprocess.Popen` call (recording the child environment passed to
it), a request write, the initialized-notification write, the warning
printed when that write raises, the stderr drain after a silent
`initialize`, and the teardown calls. -/
inductive Act where
  | dockerCheck
  | warnNotInPath
  | spawnAttempt (childEnv : List (String × String))
  | send (method : String)
  | notify (method : String)
  | warnNotifyFailed
  | drainStderr
  | terminate
  | waitBounded
  | kill
  | waitUnbounded
deriving DecidableEq, Repr

/-- First-match lookup in an association list, the dictionary access
`d[k]`. -/
def envLookup (k : String) : List (String × String) → Option String
  | [] => none
  | (k₁, v) :: rest => if k₁ = k then some v else envLookup k rest

/-- Dictionary assignment `d[k] = v`: replace the existing entry in place,
or append a new one. -/
def dictSet : List (String × String) → String → String → List (String × String)
  | [], k, v => [(k, v)]
  | (k₁, v₁) :: rest, k, v =>
    if k₁ = k then (k, v) :: rest else (k₁, v₁) :: dictSet rest k v

/-- `full_env = os.environ.copy(); full_env.update(env)` — the child's
environment is the base environment with every overlay entry assigned on
top, so overlay keys win on conflict. -/
def mergeEnv (base overlay : List (String × String)) : List (String × String) :=
  overlay.foldl (fun acc kv => dictSet acc kv.1 kv.2) base

/-- One entry of the `mcpServers` mapping, as read by `config.get`:
`type` and `command` may be absent, `args` defaults to `[]`, `env` to
`{}`. -/
structure ServerConfig where
  type? : Option String
  command? : Option String
  args : List String
  env : List (String × String)

/-- How the `process.terminate()` / `wait` / `kill` cleanup block behaves:
whether `terminate` raises (caught by the cleanup's own handler), whether
the bounded 5-second `wait` times out, and whether the subsequent `kill`
raises. -/
structure TeardownWorld where
  terminateRaises : Bool
  waitTimesOut : Bool
  killRaises : Bool

/-- The trace of the cleanup block.  `terminate` is always attempted; if
it raises the handler stops the block.  Otherwise a bounded wait follows;
on `TimeoutExpired` the process is killed and waited on without a
timeout. -/
def cleanup (t : TeardownWorld) : List Act :=
  if t.terminateRaises then [Act.terminate]
  else if t.waitTimesOut then
    if t.killRaises then [Act.terminate, Act.waitBounded, Act.kill]
    else [Act.terminate, Act.waitBounded, Act.kill, Act.waitUnbounded]
  else [Act.terminate, Act.waitBounded]

/-- Behaviour of the child process after a successful spawn:
`earlyExitCode` is `some code` when `poll()` after the 1-second grace
period reports the process already exited; the three wire fields drive the
three `send_mcp_request` calls; `notifyRaises` makes the
initialized-notification write raise (swallowed by its local handler);
`drainRaises` makes the unprotected stderr drain raise (reaching the outer
handler). -/
structure ProcWorld where
  earlyExitCode : Option Int
  initWire : WireOutcome
  notifyRaises : Bool
  toolsWire : WireOutcome
  resourcesWire : WireOutcome
  drainRaises : Bool
  td : TeardownWorld

/-- Outcome of the `subprocess.Popen` call: `FileNotFoundError`, some
other spawn exception, or a running process behaving as described. -/
inductive SpawnOutcome where
  | fileNotFound
  | otherError
  | ok (p : ProcWorld)

/-- Everything the operating system decides during one endpoint's probe:
the base process environment, whether `docker --version` passes, whether
`shutil.which` finds the command, and the spawn outcome. -/
structure World where
  osEnv : List (String × String)
  dockerOk : Bool
  whichFound : Bool
  spawn : SpawnOutcome

/-- The part of `test_mcp_server` from `subprocess.Popen` onward: spawn
(recording the merged child environment), grace-period liveness poll,
`initialize` exchange, then either the response branch (notification and
the two list requests, all best-effort) or the silent branch (stderr
drain), and finally the cleanup block.  An exception in the unprotected
stderr drain propagates to the outer handler, which returns `False`
without reaching the cleanup block. -/
def runProbe (cfg : ServerConfig) (w : World) (pre : List Act) : Bool × List Act :=
  let childEnv := mergeEnv w.osEnv cfg.env
  match w.spawn with
  | .fileNotFound => (false, pre ++ [Act.spawnAttempt childEnv])
  | .otherError => (false, pre ++ [Act.spawnAttempt childEnv])
  | .ok p =>
    let t₀ := pre ++ [Act.spawnAttempt childEnv]
    match p.earlyExitCode with
    | some _ => (false, t₀)
    | none =>
      let t₁ := t₀ ++ [Act.send "initialize"]
      if respTruthy (send_mcp_request p.initWire) then
        let notifyActs :=
          if p.notifyRaises then
            [Act.notify "notifications/initialized", Act.warnNotifyFailed]
          else [Act.notify "notifications/initialized"]
        (true, t₁ ++ notifyActs
          ++ [Act.send "tools/list", Act.send "resources/list"]
          ++ cleanup p.td)
      else
        if p.drainRaises then (false, t₁ ++ [Act.drainStderr])
        else (true, t₁ ++ [Act.drainStderr] ++ cleanup p.td)

/-- `test_mcp_server(name, config)`: reject a non-`stdio` transport and a
missing or empty command without spawning; for the `docker` command run
the `docker --version` pre-check and fail without spawning when it fails;
for any other command a failed PATH lookup only prints a warning; then run
the probe.  Returns the boolean verdict together with the action trace. -/
def test_mcp_server (cfg : ServerConfig) (w : World) : Bool × List Act :=
  if cfg.type? = some "stdio" then
    match cfg.command? with
    | none => (false, [])
    | some command =>
      if command = "" then (false, [])
      else if command = "docker" then
        if w.dockerOk then runProbe cfg w [Act.dockerCheck]
        else (false, [Act.dockerCheck])
      else
        runProbe cfg w (if w.whichFound then [] else [Act.warnNotInPath])
  else (false, [])

/-- How loading `.cursor/mcp.json` in `main` plays out: the file is
missing, `json.load` raises `JSONDecodeError`, some other read exception,
or the `mcpServers` mapping is obtained, one entry per endpoint paired
with the world its probe runs in. -/
inductive ConfigLoad where
  | missing
  | jsonError
  | readError
  | ok (servers : List (String × ServerConfig × World))

/-- The process exit status of `main`: 1 when the configuration is missing
or unreadable; 0 when no servers are configured; otherwise 1 exactly when
some endpoint's probe returned `False`. -/
def mainExit : ConfigLoad → Nat
  | .missing => 1
  | .jsonError => 1
  | .readError => 1
  | .ok servers =>
    if servers.isEmpty then 0
    else if servers.all (fun s => (test_mcp_server s.2.1 s.2.2).1) then 0 else 1

/-! ### Helper lemmas -/

theorem envLookup_dictSet_self (d : List (String × String)) (k v : String) :
    envLookup k (dictSet d k v) = some v := by
  induction d with
  | nil => simp [dictSet, envLookup]
  | cons hd tl ih =>
    obtain ⟨k₁, v₁⟩ := hd
    by_cases h : k₁ = k
    · simp [dictSet, h, envLookup]
    · simp [dictSet, h, envLookup, ih]

theorem envLookup_dictSet_ne (d : List (String × String)) (k v k₂ : String)
    (h : k₂ ≠ k) : envLookup k₂ (dictSet d k v) = envLookup k₂ d := by
  induction d with
  | nil => simp [dictSet, envLookup, Ne.symm h]
  | cons hd tl ih =>
    obtain ⟨k₁, v₁⟩ := hd
    by_cases h₁ : k₁ = k
    · subst h₁
      simp [dictSet, envLookup, Ne.symm h]
    · simp [dictSet, h₁, envLookup, ih]

theorem envLookup_eq_none_of_not_mem (l : List (String × String)) (k : String)
    (h : k ∉ l.map Prod.fst) : envLookup k l = none := by
  induction l with
  | nil => rfl
  | cons hd tl ih =>
    obtain ⟨k₁, v₁⟩ := hd
    simp only [List.map_cons, List.mem_cons] at h
    push_neg at h
    simp [envLookup, Ne.symm h.1, ih h.2]

theorem envLookup_mergeEnv (base overlay : List (String × String))
    (h : (overlay.map Prod.fst).Nodup) (k : String) :
    envLookup k (mergeEnv base overlay)
      = match envLookup k overlay with
        | some v => some v
        | none => envLookup k base := by
  induction overlay generalizing base with
  | nil => simp [mergeEnv, envLookup]
  | cons hd tl ih =>
    obtain ⟨k₀, v₀⟩ := hd
    simp only [List.map_cons, List.nodup_cons] at h
    have step : mergeEnv base ((k₀, v₀) :: tl) = mergeEnv (dictSet base k₀ v₀) tl := rfl
    rw [step, ih (dictSet base k₀ v₀) h.2]
    by_cases hk : k₀ = k
    · subst hk
      rw [envLookup_eq_none_of_not_mem tl k₀ h.1]
      simp [envLookup, envLookup_dictSet_self]
    · have : envLookup k ((k₀, v₀) :: tl) = envLookup k tl := by simp [envLookup, hk]
      rw [this, envLookup_dictSet_ne base k₀ v₀ k (fun e => hk e.symm)]

/-- Every action in a cleanup trace is one of the four teardown calls. -/
theorem mem_cleanup (t : TeardownWorld) (a : Act) (h : a ∈ cleanup t) :
    a = Act.terminate ∨ a = Act.waitBounded ∨ a = Act.kill ∨ a = Act.waitUnbounded := by
  obtain ⟨t₁, t₂, t₃⟩ := t
  cases t₁ <;> cases t₂ <;> cases t₃ <;> simp_all [cleanup] <;> tauto

/-- Count of `terminate` actions in a trace. -/
def countTerminate : List Act → Nat
  | [] => 0
  | Act.terminate :: rest => 1 + countTerminate rest
  | _ :: rest => countTerminate rest

theorem countTerminate_append (a b : List Act) :
    countTerminate (a ++ b) = countTerminate a + countTerminate b := by
  induction a with
  | nil => simp [countTerminate]
  | cons hd tl ih =>
    cases hd <;> simp [countTerminate, ih, Nat.add_assoc]

/-- The cleanup block always calls `terminate` exactly once. -/
theorem countTerminate_cleanup (t : TeardownWorld) :
    countTerminate (cleanup t) = 1 := by
  obtain ⟨t₁, t₂, t₃⟩ := t
  cases t₁ <;> cases t₂ <;> cases t₃ <;> rfl

/-- Once control reaches `subprocess.Popen`, the spawn attempt with the
merged child environment is in the trace, whatever the outcome. -/
theorem spawnAttempt_mem_runProbe (cfg : ServerConfig) (w : World) (pre : List Act) :
    Act.spawnAttempt (mergeEnv w.osEnv cfg.env) ∈ (runProbe cfg w pre).2 := by
  unfold runProbe
  cases hs : w.spawn with
  | fileNotFound => simp
  | otherError => simp
  | ok p =>
    cases he : p.earlyExitCode with
    | some code => simp [he]
    | none =>
      by_cases hr : respTruthy (send_mcp_request p.initWire)
      · simp [he, hr]
      · by_cases hd : p.drainRaises <;> simp [he, hr, hd]

/-- Unfolding of `test_mcp_server` once the configuration checks pass:
the probe runs, preceded by the docker pre-check action or the PATH
warning. -/
theorem test_reaches_probe (cfg : ServerConfig) (w : World) (c : String)
    (hty : cfg.type? = some "stdio") (hcmd : cfg.command? = some c) (hc : c ≠ "")
    (hdock : c = "docker" → w.dockerOk = true) :
    test_mcp_server cfg w
      = runProbe cfg w
          (if c = "docker" then [Act.dockerCheck]
           else if w.whichFound then [] else [Act.warnNotInPath]) := by
  by_cases hdc : c = "docker"
  · simp [test_mcp_server, hty, hcmd, hc, hdc, hdock hdc]
  · simp [test_mcp_server, hty, hcmd, hc, hdc]

/-- The verdict of the probe does not depend on the actions accumulated
before the spawn. -/
theorem runProbe_fst_pre (cfg : ServerConfig) (w : World) (pre₁ pre₂ : List Act) :
    (runProbe cfg w pre₁).1 = (runProbe cfg w pre₂).1 := by
  unfold runProbe
  cases hs : w.spawn with
  | fileNotFound => rfl
  | otherError => rfl
  | ok p =>
    cases he : p.earlyExitCode with
    | some code => simp [he]
    | none =>
      by_cases hr : respTruthy (send_mcp_request p.initWire)
      · simp [he, hr]
      · by_cases hd : p.drainRaises <;> simp [he, hr, hd]

/-- Pre-spawn actions are preserved in the probe's trace. -/
theorem pre_subset_runProbe (cfg : ServerConfig) (w : World) (pre : List Act)
    (a : Act) (h : a ∈ pre) : a ∈ (runProbe cfg w pre).2 := by
  unfold runProbe
  cases hs : w.spawn with
  | fileNotFound => simp [h]
  | otherError => simp [h]
  | ok p =>
    cases he : p.earlyExitCode with
    | some code => simp [he, h]
    | none =>
      by_cases hr : respTruthy (send_mcp_request p.initWire)
      · simp [he, hr, h]
      · by_cases hd : p.drainRaises <;> simp [he, hr, hd, h]

/-- No request write happens inside the cleanup block. -/
theorem send_not_mem_cleanup (t : TeardownWorld) (m : String) :
    Act.send m ∉ cleanup t := by
  intro h
  rcases mem_cleanup t _ h with h₁ | h₁ | h₁ | h₁ <;> simp at h₁

/-- No notification write happens inside the cleanup block. -/
theorem notify_not_mem_cleanup (t : TeardownWorld) (m : String) :
    Act.notify m ∉ cleanup t := by
  intro h
  rcases mem_cleanup t _ h with h₁ | h₁ | h₁ | h₁ <;> simp at h₁

/-- Two probes whose `initialize` exchanges deserialize to the same value
behave identically. -/
theorem runProbe_initWire_congr (cfg : ServerConfig) (w : World) (p : ProcWorld)
    (wire₁ wire₂ : WireOutcome) (pre : List Act)
    (h : send_mcp_request wire₁ = send_mcp_request wire₂) :
    runProbe cfg { w with spawn := SpawnOutcome.ok { p with initWire := wire₁ } } pre
      = runProbe cfg { w with spawn := SpawnOutcome.ok { p with initWire := wire₂ } } pre := by
  simp only [runProbe]
  cases he : p.earlyExitCode <;> simp [he, h]

/-- The probe's verdict ignores whether the initialized-notification write
raises. -/
theorem runProbe_notifyRaises_fst (cfg : ServerConfig) (w : World) (p : ProcWorld)
    (b₁ b₂ : Bool) (pre : List Act) :
    (runProbe cfg { w with spawn := SpawnOutcome.ok { p with notifyRaises := b₁ } } pre).1
      = (runProbe cfg { w with spawn := SpawnOutcome.ok { p with notifyRaises := b₂ } } pre).1 := by
  simp only [runProbe]
  cases he : p.earlyExitCode with
  | some code => simp [he]
  | none =>
    by_cases hr : respTruthy (send_mcp_request p.initWire)
    · simp [he, hr]
    · by_cases hd : p.drainRaises <;> simp [he, hr, hd]

/-- Lift an equality of probes to an equality of `test_mcp_server` runs,
for two worlds that agree on everything the configuration checks read. -/
theorem test_congr (cfg : ServerConfig) (w₁ w₂ : World)
    (hdo : w₁.dockerOk = w₂.dockerOk) (hwh : w₁.whichFound = w₂.whichFound)
    (h : ∀ pre, runProbe cfg w₁ pre = runProbe cfg w₂ pre) :
    test_mcp_server cfg w₁ = test_mcp_server cfg w₂ := by
  unfold test_mcp_server
  by_cases hty : cfg.type? = some "stdio"
  · cases hcmd : cfg.command? with
    | none => simp [hty]
    | some c =>
      by_cases hc : c = ""
      · simp [hty, hc]
      · by_cases hdc : c = "docker"
        · simp [hty, hc, hdc, hdo, h]
        · simp [hty, hc, hdc, hwh, h]
  · simp [hty]

/-- Lift a verdict equality of probes to a verdict equality of
`test_mcp_server` runs. -/
theorem test_fst_congr (cfg : ServerConfig) (w₁ w₂ : World)
    (hdo : w₁.dockerOk = w₂.dockerOk) (hwh : w₁.whichFound = w₂.whichFound)
    (h : ∀ pre₁ pre₂, (runProbe cfg w₁ pre₁).1 = (runProbe cfg w₂ pre₂).1) :
    (test_mcp_server cfg w₁).1 = (test_mcp_server cfg w₂).1 := by
  unfold test_mcp_server
  by_cases hty : cfg.type? = some "stdio"
  · cases hcmd : cfg.command? with
    | none => simp [hty]
    | some c =>
      by_cases hc : c = ""
      · simp [hty, hc]
      · by_cases hdc : c = "docker"
        · simp [hty, hc, hdc, hdo]
          split
          · exact h _ _
          · rfl
        · simp [hty, hc, hdc, hwh]
          exact h _ _
  · simp [hty]

/-! ### Concrete fixtures -/

/-- The endpoint configuration `{transport: stdio, command: "cat"}` of the
spec's end-to-end scenario A. -/
def stdioCat : ServerConfig := ⟨some "stdio", some "cat", [], []⟩

/-- A teardown in which `terminate` succeeds and the bounded wait
returns in time. -/
def quietTd : TeardownWorld := ⟨false, false, false⟩

/-- A child that stays alive and never answers any request. -/
def silentProc : ProcWorld :=
  ⟨none, WireOutcome.timeout, false, WireOutcome.timeout, WireOutcome.timeout, false, quietTd⟩

/-- A world in which the spawn of a silent, surviving child succeeds. -/
def silentWorld : World := ⟨[], true, true, SpawnOutcome.ok silentProc⟩

/-! ### Claims -/

/-- Claim C1 as amended: for every endpoint whose process spawns
successfully and does not exit within the grace period, if the
`initialize` request receives no response within the timeout window *and
no exception escapes the unprotected stderr drain that follows*, the
probe still returns `true` — the endpoint is reported successful, not
failed. -/
theorem no_response_still_success (cfg : ServerConfig) (w : World) (p : ProcWorld)
    (c : String)
    (hty : cfg.type? = some "stdio") (hcmd : cfg.command? = some c) (hc : c ≠ "")
    (hdock : c = "docker" → w.dockerOk = true)
    (hsp : w.spawn = SpawnOutcome.ok p) (he : p.earlyExitCode = none)
    (hresp : send_mcp_request p.initWire = none)
    (hdrain : p.drainRaises = false) :
    (test_mcp_server cfg w).1 = true := by
  rw [test_reaches_probe cfg w c hty hcmd hc hdock]
  simp [runProbe, hsp, he, hresp, respTruthy, hdrain]

/-- Witness for C1: the scenario-A endpoint (`cat`): spawn succeeds, the
child survives, `initialize` times out, and the probe reports success. -/
theorem no_response_still_success_witness :
    (test_mcp_server stdioCat silentWorld).1 = true :=
  no_response_still_success stdioCat silentWorld silentProc "cat" rfl rfl
    (by decide) (by decide) rfl rfl rfl rfl

/-- Claim C2: for every endpoint whose process has already exited when
polled after the grace period, the probe returns `false`, regardless of
the exit code — including exit code 0. -/
theorem immediate_exit_reported_failed (cfg : ServerConfig) (w : World)
    (p : ProcWorld) (code : Int)
    (hsp : w.spawn = SpawnOutcome.ok p) (he : p.earlyExitCode = some code) :
    (test_mcp_server cfg w).1 = false := by
  have hrp : ∀ pre, (runProbe cfg w pre).1 = false := by
    intro pre
    simp [runProbe, hsp, he]
  unfold test_mcp_server
  by_cases hty : cfg.type? = some "stdio"
  · cases hcmd : cfg.command? with
    | none => simp [hty]
    | some c =>
      by_cases hc : c = ""
      · simp [hty, hc]
      · by_cases hdc : c = "docker"
        · by_cases hdo : w.dockerOk <;> simp [hty, hc, hdc, hdo, hrp]
        · simp [hty, hc, hdc, hrp]
  · simp [hty]

/-- A child that exits with code 0 during the grace period. -/
def exitZeroProc : ProcWorld :=
  ⟨some 0, WireOutcome.timeout, false, WireOutcome.timeout, WireOutcome.timeout, false, quietTd⟩

/-- A world in which the spawned child exits with code 0 immediately. -/
def exitZeroWorld : World := ⟨[], true, true, SpawnOutcome.ok exitZeroProc⟩

/-- Witness for C2: a child exiting with code 0 during the grace period is
reported failed. -/
theorem immediate_exit_reported_failed_witness :
    (test_mcp_server stdioCat exitZeroWorld).1 = false :=
  immediate_exit_reported_failed stdioCat exitZeroWorld exitZeroProc 0 rfl rfl

/-- Claim C8: a non-`stdio` transport kind, or a missing or empty command,
is immediately reported failed with no child process spawned (the trace is
empty, so in particular it records no spawn attempt). -/
theorem unsupported_or_missing_command_fails_no_spawn (cfg : ServerConfig) (w : World)
    (h : cfg.type? ≠ some "stdio" ∨ cfg.command? = none ∨ cfg.command? = some "") :
    test_mcp_server cfg w = (false, []) := by
  rcases h with h | h | h
  · simp [test_mcp_server, h]
  · by_cases hty : cfg.type? = some "stdio" <;> simp [test_mcp_server, hty, h]
  · by_cases hty : cfg.type? = some "stdio" <;> simp [test_mcp_server, hty, h]

/-- Witness for C8: the scenario-C endpoint `{transport: "sse",
command: "x"}` fails with an empty trace. -/
theorem unsupported_or_missing_command_fails_no_spawn_witness :
    test_mcp_server ⟨some "sse", some "x", [], []⟩ silentWorld = (false, []) :=
  unsupported_or_missing_command_fails_no_spawn ⟨some "sse", some "x", [], []⟩
    silentWorld (Or.inl (by decide))

/-- Claim C9: the spawn attempt recorded in the trace passes the child the
environment `mergeEnv w.osEnv cfg.env`, and in that merged environment
every key of the overlay maps to the overlay's value while every other key
keeps its base value. -/
theorem child_env_merge (cfg : ServerConfig) (w : World) (c : String)
    (hty : cfg.type? = some "stdio") (hcmd : cfg.command? = some c) (hc : c ≠ "")
    (hdock : c = "docker" → w.dockerOk = true)
    (hnodup : (cfg.env.map Prod.fst).Nodup) (k : String) :
    Act.spawnAttempt (mergeEnv w.osEnv cfg.env) ∈ (test_mcp_server cfg w).2
    ∧ envLookup k (mergeEnv w.osEnv cfg.env)
        = match envLookup k cfg.env with
          | some v => some v
          | none => envLookup k w.osEnv := by
  refine ⟨?_, envLookup_mergeEnv _ _ hnodup k⟩
  rw [test_reaches_probe cfg w c hty hcmd hc hdock]
  exact spawnAttempt_mem_runProbe cfg w _

/-- An endpoint overriding `B` and adding `C` through its `env` overlay. -/
def overlayCfg : ServerConfig := ⟨some "stdio", some "cat", [], [("B", "3"), ("C", "4")]⟩

/-- A world whose base environment binds `A` and `B`. -/
def overlayWorld : World := ⟨[("A", "1"), ("B", "2")], true, true, SpawnOutcome.ok silentProc⟩

/-- Witness for C9: with base `{A:1, B:2}` and overlay `{B:3, C:4}`, the
spawn attempt carries the merged environment, and key `B` resolves to the
overlay's value `3`. -/
theorem child_env_merge_witness :
    Act.spawnAttempt (mergeEnv overlayWorld.osEnv overlayCfg.env)
      ∈ (test_mcp_server overlayCfg overlayWorld).2
    ∧ envLookup "B" (mergeEnv overlayWorld.osEnv overlayCfg.env) = some "3" :=
  child_env_merge overlayCfg overlayWorld "cat" rfl rfl (by decide) (by decide)
    (by decide) "B"

/-- A child that stays alive, never answers `initialize`, and whose
stderr drain raises an exception. -/
def drainRaiseProc : ProcWorld :=
  ⟨none, WireOutcome.timeout, false, WireOutcome.timeout, WireOutcome.timeout, true, quietTd⟩

/-- A world in which the spawn succeeds but the stderr drain raises. -/
def drainRaiseWorld : World := ⟨[], true, true, SpawnOutcome.ok drainRaiseProc⟩

/-- Counterexample to claim C1 as stated: a process that spawned
successfully, survived the grace period, and got no response to
`initialize`, yet the probe returns `false`, not `true`: the stderr drain
performed on the no-response path raises, the exception lands in the
outer handler, and the endpoint is reported failed. -/
theorem no_response_failed_on_drain_exception :
    drainRaiseWorld.spawn = SpawnOutcome.ok drainRaiseProc
    ∧ drainRaiseProc.earlyExitCode = none
    ∧ send_mcp_request drainRaiseProc.initWire = none
    ∧ (test_mcp_server stdioCat drainRaiseWorld).1 = false :=
  ⟨rfl, rfl, rfl, rfl⟩

/-- Counterexample to claim C3 as stated: the process spawned, survived
the grace period, and an exception was raised at a later step (the stderr
drain, the only step of the probe not wrapped in its own handler), yet the
probe returns without having performed the teardown sequence even once:
the cleanup block is skipped because the exception lands in the outer
handler, which returns `False` directly. -/
theorem teardown_skipped_on_drain_exception :
    drainRaiseWorld.spawn = SpawnOutcome.ok drainRaiseProc
    ∧ drainRaiseProc.earlyExitCode = none
    ∧ drainRaiseProc.drainRaises = true
    ∧ (test_mcp_server stdioCat drainRaiseWorld).1 = false
    ∧ countTerminate (test_mcp_server stdioCat drainRaiseWorld).2 = 0 :=
  ⟨rfl, rfl, rfl, rfl, rfl⟩

/-- Claim C3 as amended: for every endpoint whose process spawned and
survived the grace period, every execution path on which no exception
escapes to the outer handler — success, send timeout, malformed response
data, and a failing notification write are all such paths, since `send`
and the notification write swallow their own exceptions — performs the
teardown sequence exactly once before the probe returns; only an
exception in the unprotected stderr drain (reachable just when
`initialize` got no truthy response) skips teardown. -/
theorem teardown_once_without_unhandled_exception (cfg : ServerConfig) (w : World)
    (p : ProcWorld) (c : String)
    (hty : cfg.type? = some "stdio") (hcmd : cfg.command? = some c) (hc : c ≠ "")
    (hdock : c = "docker" → w.dockerOk = true)
    (hsp : w.spawn = SpawnOutcome.ok p) (he : p.earlyExitCode = none)
    (hok : respTruthy (send_mcp_request p.initWire) = true ∨ p.drainRaises = false) :
    countTerminate (test_mcp_server cfg w).2 = 1 := by
  rw [test_reaches_probe cfg w c hty hcmd hc hdock]
  have hpre : countTerminate
      (if c = "docker" then [Act.dockerCheck]
       else if w.whichFound then [] else [Act.warnNotInPath]) = 0 := by
    by_cases hdc : c = "docker"
    · simp [hdc, countTerminate]
    · by_cases hw : w.whichFound <;> simp [hdc, hw, countTerminate]
  rcases hok with hr | hd
  · by_cases hn : p.notifyRaises <;>
      simp [runProbe, hsp, he, hr, hn, countTerminate_append, countTerminate,
        countTerminate_cleanup, hpre]
  · by_cases hr : respTruthy (send_mcp_request p.initWire)
    · by_cases hn : p.notifyRaises <;>
        simp [runProbe, hsp, he, hr, hd, hn, countTerminate_append, countTerminate,
          countTerminate_cleanup, hpre]
    · simp [runProbe, hsp, he, hr, hd, countTerminate_append, countTerminate,
        countTerminate_cleanup, hpre]

/-- Witness for amended C3: the silent-but-alive endpoint performs the
teardown sequence exactly once. -/
theorem teardown_once_without_unhandled_exception_witness :
    countTerminate (test_mcp_server stdioCat silentWorld).2 = 1 :=
  teardown_once_without_unhandled_exception stdioCat silentWorld silentProc "cat"
    rfl rfl (by decide) (by decide) rfl rfl (Or.inr rfl)

/-- Counterexample to claim C4 as stated: the process spawned and survived
the grace period, `initialize` received no response, and steps 3 and 4
were *not* performed — `tools/list` is absent from the trace (and the
endpoint is nonetheless reported successful). -/
theorem tools_list_skipped_when_init_silent :
    silentWorld.spawn = SpawnOutcome.ok silentProc
    ∧ silentProc.earlyExitCode = none
    ∧ send_mcp_request silentProc.initWire = none
    ∧ (test_mcp_server stdioCat silentWorld).1 = true
    ∧ Act.send "tools/list" ∉ (test_mcp_server stdioCat silentWorld).2
    ∧ Act.send "resources/list" ∉ (test_mcp_server stdioCat silentWorld).2 :=
  ⟨rfl, rfl, rfl, rfl, by decide, by decide⟩

/-- Claim C4 as amended: for every endpoint whose process spawned and
survived the grace period, steps 2–4 (the initialized notification,
`tools/list` and `resources/list`) are performed exactly when step 1
(`initialize`) returned a truthy response; when `initialize` is silent the
probe drains stderr and proceeds directly to teardown, skipping steps 2–4
(within the response branch no step aborts a later one). -/
theorem later_steps_iff_init_response (cfg : ServerConfig) (w : World)
    (p : ProcWorld) (c : String)
    (hty : cfg.type? = some "stdio") (hcmd : cfg.command? = some c) (hc : c ≠ "")
    (hdock : c = "docker" → w.dockerOk = true)
    (hsp : w.spawn = SpawnOutcome.ok p) (he : p.earlyExitCode = none) :
    ((Act.send "tools/list" ∈ (test_mcp_server cfg w).2)
      ↔ respTruthy (send_mcp_request p.initWire) = true)
    ∧ ((Act.send "resources/list" ∈ (test_mcp_server cfg w).2)
      ↔ respTruthy (send_mcp_request p.initWire) = true)
    ∧ ((Act.notify "notifications/initialized" ∈ (test_mcp_server cfg w).2)
      ↔ respTruthy (send_mcp_request p.initWire) = true) := by
  rw [test_reaches_probe cfg w c hty hcmd hc hdock]
  by_cases hr : respTruthy (send_mcp_request p.initWire)
  · by_cases hn : p.notifyRaises <;>
      simp [runProbe, hsp, he, hr, hn]
  · by_cases hd : p.drainRaises <;>
      by_cases hdc : c = "docker" <;>
        by_cases hw : w.whichFound <;>
          simp [runProbe, hsp, he, hr, hd, hdc, hw,
            send_not_mem_cleanup, notify_not_mem_cleanup]

/-- A child that answers `initialize` with a truthy response. -/
def respondingProc : ProcWorld :=
  ⟨none, WireOutcome.line (some (PyValue.obj [("jsonrpc", PyValue.str "2.0")])), false,
    WireOutcome.timeout, WireOutcome.timeout, false, quietTd⟩

/-- A world in which the spawned child answers `initialize`. -/
def respondingWorld : World := ⟨[], true, true, SpawnOutcome.ok respondingProc⟩

/-- Witness for amended C4: for the responding endpoint, the response was
truthy and all of steps 2–4 appear in the trace. -/
theorem later_steps_iff_init_response_witness :
    ((Act.send "tools/list" ∈ (test_mcp_server stdioCat respondingWorld).2)
      ↔ respTruthy (send_mcp_request respondingProc.initWire) = true)
    ∧ ((Act.send "resources/list" ∈ (test_mcp_server stdioCat respondingWorld).2)
      ↔ respTruthy (send_mcp_request respondingProc.initWire) = true)
    ∧ ((Act.notify "notifications/initialized" ∈ (test_mcp_server stdioCat respondingWorld).2)
      ↔ respTruthy (send_mcp_request respondingProc.initWire) = true) :=
  later_steps_iff_init_response stdioCat respondingWorld respondingProc "cat"
    rfl rfl (by decide) (by decide) rfl rfl

/-- Claim C10: when the configured command is exactly `docker`, a
pre-spawn `docker --version` check runs, and its failure reports the
endpoint failed with no spawn attempt; for any other command, a failed
PATH lookup only adds a warning to the trace — the spawn is still
attempted and the verdict is the same as if the lookup had succeeded. -/
theorem docker_precheck_and_path_warning :
    (∀ (cfg : ServerConfig) (w : World),
      cfg.type? = some "stdio" → cfg.command? = some "docker" → w.dockerOk = false →
      test_mcp_server cfg w = (false, [Act.dockerCheck]))
    ∧ (∀ (cfg : ServerConfig) (w : World) (c : String),
      cfg.type? = some "stdio" → cfg.command? = some c → c ≠ "" → c ≠ "docker" →
      w.whichFound = false →
      Act.warnNotInPath ∈ (test_mcp_server cfg w).2
      ∧ Act.spawnAttempt (mergeEnv w.osEnv cfg.env) ∈ (test_mcp_server cfg w).2
      ∧ (test_mcp_server cfg w).1
          = (test_mcp_server cfg { w with whichFound := true }).1) := by
  constructor
  · intro cfg w hty hcmd hdo
    simp [test_mcp_server, hty, hcmd, hdo]
  · intro cfg w c hty hcmd hc hdc hw
    have hstep : test_mcp_server cfg w = runProbe cfg w [Act.warnNotInPath] := by
      rw [test_reaches_probe cfg w c hty hcmd hc (fun h => absurd h hdc)]
      simp [hdc, hw]
    have hstep' : test_mcp_server cfg { w with whichFound := true }
        = runProbe cfg w [] := by
      rw [test_reaches_probe cfg { w with whichFound := true } c hty hcmd hc
        (fun h => absurd h hdc)]
      simp only [hdc, if_false, ite_true, if_neg hdc]
      rfl
    refine ⟨?_, ?_, ?_⟩
    · rw [hstep]
      exact pre_subset_runProbe cfg w _ _ (by simp)
    · rw [hstep]
      exact spawnAttempt_mem_runProbe cfg w _
    · rw [hstep, hstep']
      exact runProbe_fst_pre cfg w _ _

/-- The `docker` endpoint configuration. -/
def dockerCfg : ServerConfig := ⟨some "stdio", some "docker", [], []⟩

/-- A world in which the `docker --version` pre-check fails. -/
def noDockerWorld : World := ⟨[], false, true, SpawnOutcome.ok silentProc⟩

/-- A world in which the command is not found on the PATH. -/
def noPathWorld : World := ⟨[], true, false, SpawnOutcome.ok silentProc⟩

/-- Witness for C10: the failing docker pre-check yields failure with only
the check in the trace; a missing-from-PATH `cat` still spawns, with the
warning recorded and the verdict unchanged. -/
theorem docker_precheck_and_path_warning_witness :
    test_mcp_server dockerCfg noDockerWorld = (false, [Act.dockerCheck])
    ∧ (Act.warnNotInPath ∈ (test_mcp_server stdioCat noPathWorld).2
      ∧ Act.spawnAttempt (mergeEnv noPathWorld.osEnv stdioCat.env)
          ∈ (test_mcp_server stdioCat noPathWorld).2
      ∧ (test_mcp_server stdioCat noPathWorld).1
          = (test_mcp_server stdioCat { noPathWorld with whichFound := true }).1) :=
  ⟨docker_precheck_and_path_warning.1 dockerCfg noDockerWorld rfl rfl rfl,
   docker_precheck_and_path_warning.2 stdioCat noPathWorld "cat" rfl rfl
     (by decide) (by decide) rfl⟩

/-- Claim C5: `main` exits 0 exactly when the configuration loaded and
every configured endpoint's probe succeeded (vacuously so when no servers
are configured); in every other case — missing file, malformed document,
unreadable file, or any failing endpoint — it exits 1. -/
theorem exit_status_zero_iff_all_pass (c : ConfigLoad) :
    (mainExit c = 0 ∨ mainExit c = 1)
    ∧ (mainExit c = 0
        ↔ ∃ servers, c = ConfigLoad.ok servers
          ∧ ∀ s ∈ servers, (test_mcp_server s.2.1 s.2.2).1 = true) := by
  cases c with
  | missing => simp [mainExit]
  | jsonError => simp [mainExit]
  | readError => simp [mainExit]
  | ok servers =>
    constructor
    · by_cases hemp : servers.isEmpty <;>
        by_cases hall : servers.all (fun s => (test_mcp_server s.2.1 s.2.2).1) <;>
          simp [mainExit, hemp, hall]
    · constructor
      · intro h0
        refine ⟨servers, rfl, ?_⟩
        intro s hs
        by_cases hemp : servers.isEmpty
        · rw [List.isEmpty_iff] at hemp
          subst hemp
          simp at hs
        · by_cases hall : servers.all (fun s => (test_mcp_server s.2.1 s.2.2).1)
          · exact List.all_eq_true.mp hall s hs
          · simp [mainExit, hemp, hall] at h0
      · rintro ⟨servers₁, heq, hforall⟩
        injection heq with heq₁
        subst heq₁
        by_cases hemp : servers.isEmpty
        · simp [mainExit, hemp]
        · have hall : servers.all (fun s => (test_mcp_server s.2.1 s.2.2).1) = true :=
            List.all_eq_true.mpr (fun s hs => hforall s hs)
          simp [mainExit, hemp, hall]

/-- Witness for C5: a run whose single endpoint passes exits 0, and a
missing configuration exits 1. -/
theorem exit_status_zero_iff_all_pass_witness :
    (mainExit (ConfigLoad.ok [("cat", stdioCat, silentWorld)]) = 0
      ↔ ∃ servers, ConfigLoad.ok [("cat", stdioCat, silentWorld)] = ConfigLoad.ok servers
        ∧ ∀ s ∈ servers, (test_mcp_server s.2.1 s.2.2).1 = true)
    ∧ (mainExit ConfigLoad.missing = 0 ∨ mainExit ConfigLoad.missing = 1) :=
  ⟨(exit_status_zero_iff_all_pass (ConfigLoad.ok [("cat", stdioCat, silentWorld)])).2,
   (exit_status_zero_iff_all_pass ConfigLoad.missing).1⟩

/-- Probes that get `initialize` answers deserializing to the same value
are indistinguishable. -/
theorem test_initWire_congr (cfg : ServerConfig) (w : World) (p : ProcWorld)
    (wire₁ wire₂ : WireOutcome)
    (h : send_mcp_request wire₁ = send_mcp_request wire₂) :
    test_mcp_server cfg { w with spawn := SpawnOutcome.ok { p with initWire := wire₁ } }
      = test_mcp_server cfg { w with spawn := SpawnOutcome.ok { p with initWire := wire₂ } } :=
  test_congr cfg _ _ rfl rfl
    (fun pre => runProbe_initWire_congr cfg w p wire₁ wire₂ pre h)

/-- Claim C6: `send_mcp_request` returns `None` — without any exception
escaping — when the response window times out, when the line read is
empty, and when the line is malformed (where `json.loads` raising is
caught by the function's own handler); and any two no-response outcomes of
the `initialize` exchange are treated identically by the whole probe. -/
theorem send_none_on_timeout_or_malformed :
    send_mcp_request WireOutcome.timeout = none
    ∧ send_mcp_request WireOutcome.emptyLine = none
    ∧ send_mcp_request (WireOutcome.line none) = none
    ∧ send_body (WireOutcome.line none) = Except.error ()
    ∧ ∀ (cfg : ServerConfig) (w : World) (p : ProcWorld) (wire₁ wire₂ : WireOutcome),
        send_mcp_request wire₁ = none → send_mcp_request wire₂ = none →
        test_mcp_server cfg { w with spawn := SpawnOutcome.ok { p with initWire := wire₁ } }
          = test_mcp_server cfg
              { w with spawn := SpawnOutcome.ok { p with initWire := wire₂ } } := by
  refine ⟨rfl, rfl, rfl, rfl, ?_⟩
  intro cfg w p wire₁ wire₂ h₁ h₂
  exact test_initWire_congr cfg w p wire₁ wire₂ (h₁.trans h₂.symm)

/-- Witness for C6: a timed-out `initialize` and a malformed `initialize`
response line produce identical probe runs on the scenario-A endpoint. -/
theorem send_none_on_timeout_or_malformed_witness :
    test_mcp_server stdioCat
        { silentWorld with
            spawn := SpawnOutcome.ok { silentProc with initWire := WireOutcome.timeout } }
      = test_mcp_server stdioCat
          { silentWorld with
              spawn := SpawnOutcome.ok { silentProc with initWire := WireOutcome.line none } } :=
  send_none_on_timeout_or_malformed.2.2.2.2 stdioCat silentWorld silentProc
    WireOutcome.timeout (WireOutcome.line none) rfl rfl

/-- Claim C7: a failure of the initialized-notification write is
swallowed: the verdict never depends on whether that write raises, and
when it does raise (after a truthy `initialize` response) the endpoint is
still reported successful with `tools/list` and `resources/list` still
attempted. -/
theorem notify_failure_swallowed :
    (∀ (cfg : ServerConfig) (w : World) (p : ProcWorld),
      (test_mcp_server cfg
        { w with spawn := SpawnOutcome.ok { p with notifyRaises := true } }).1
        = (test_mcp_server cfg
            { w with spawn := SpawnOutcome.ok { p with notifyRaises := false } }).1)
    ∧ (∀ (cfg : ServerConfig) (w : World) (p : ProcWorld) (c : String),
      cfg.type? = some "stdio" → cfg.command? = some c → c ≠ "" →
      (c = "docker" → w.dockerOk = true) →
      w.spawn = SpawnOutcome.ok p → p.earlyExitCode = none →
      respTruthy (send_mcp_request p.initWire) = true → p.notifyRaises = true →
      (test_mcp_server cfg w).1 = true
      ∧ Act.send "tools/list" ∈ (test_mcp_server cfg w).2
      ∧ Act.send "resources/list" ∈ (test_mcp_server cfg w).2) := by
  constructor
  · intro cfg w p
    refine test_fst_congr cfg _ _ rfl rfl (fun pre₁ pre₂ => ?_)
    rw [runProbe_notifyRaises_fst cfg w p true false pre₁]
    exact runProbe_fst_pre cfg _ pre₁ pre₂
  · intro cfg w p c hty hcmd hc hdock hsp he hr hn
    rw [test_reaches_probe cfg w c hty hcmd hc hdock]
    refine ⟨?_, ?_, ?_⟩ <;> simp [runProbe, hsp, he, hr, hn]

/-- A child that answers `initialize` but whose notification write
raises. -/
def notifyRaiseProc : ProcWorld :=
  ⟨none, WireOutcome.line (some (PyValue.obj [("jsonrpc", PyValue.str "2.0")])), true,
    WireOutcome.timeout, WireOutcome.timeout, false, quietTd⟩

/-- A world spawning `notifyRaiseProc`. -/
def notifyRaiseWorld : World := ⟨[], true, true, SpawnOutcome.ok notifyRaiseProc⟩

/-- Witness for C7: flipping the notification-write failure leaves the
scenario-A verdict unchanged, and the endpoint whose notification write
raises is still reported successful with both list requests attempted. -/
theorem notify_failure_swallowed_witness :
    ((test_mcp_server stdioCat
        { silentWorld with
            spawn := SpawnOutcome.ok { silentProc with notifyRaises := true } }).1
      = (test_mcp_server stdioCat
          { silentWorld with
              spawn := SpawnOutcome.ok { silentProc with notifyRaises := false } }).1)
    ∧ ((test_mcp_server stdioCat notifyRaiseWorld).1 = true
      ∧ Act.send "tools/list" ∈ (test_mcp_server stdioCat notifyRaiseWorld).2
      ∧ Act.send "resources/list" ∈ (test_mcp_server stdioCat notifyRaiseWorld).2) :=
  ⟨notify_failure_swallowed.1 stdioCat silentWorld silentProc,
   notify_failure_swallowed.2 stdioCat notifyRaiseWorld notifyRaiseProc "cat" rfl rfl
     (by decide) (by decide) rfl rfl rfl rfl⟩

end McpDebug
